import Mathlib

/-!
Verification of the Digital-Twin diet-plan matching and meal-cycle assembly
engine.  The definitions below are a shallow embedding of the Python source:

* `service/pdf_recommender.py`   (strict hierarchical match, cycle assembler)
* `service/recommender_goal/goal_recommender.py`   (relaxed goal match)
* `service/recommender_exact/exact_recommender.py` (exact match)
* spec §4.3 for the weighted score match (its implementation is absent from
  the source tree; only its tests remain).

JSON dictionaries are embedded as structures with `Option` fields (a `none`
field models an absent key).  Python truthiness of strings / ints / options
is modelled explicitly by the `py_*` helpers.
-/

namespace DigitalTwin

/-- ASCII lower-casing of one character (Python `str.lower` on the ASCII
attribute vocabulary of this code base). -/
def py_lower_char (c : Char) : Char :=
  if c.toNat ≥ 65 ∧ c.toNat ≤ 90 then Char.ofNat (c.toNat + 32) else c

/-- ASCII upper-casing of one character. -/
def py_upper_char (c : Char) : Char :=
  if c.toNat ≥ 97 ∧ c.toNat ≤ 122 then Char.ofNat (c.toNat - 32) else c

/-- Python `s.lower()` (ASCII). -/
def py_lower (s : String) : String :=
  ⟨s.data.map py_lower_char⟩

/-- Is this character an ASCII letter? -/
def py_is_alpha (c : Char) : Bool :=
  (c.toNat ≥ 65 && c.toNat ≤ 90) || (c.toNat ≥ 97 && c.toNat ≤ 122)

/-- Helper for `py_title`: the boolean records whether the previous
character was a letter. -/
def py_title_aux : Bool → List Char → List Char
  | _, [] => []
  | prev, c :: rest =>
    let c' := if py_is_alpha c then (if prev then py_lower_char c else py_upper_char c) else c
    c' :: py_title_aux (py_is_alpha c) rest

/-- Python `s.title()` (ASCII): upper-case the first letter of each
alphabetic run, lower-case the rest. -/
def py_title (s : String) : String :=
  ⟨py_title_aux false s.data⟩

/-- Python `s.replace('_', ' ')`: the single-character case suffices for
this code base. -/
def py_replace_char (s : String) (a b : Char) : String :=
  ⟨s.data.map (fun c => if c = a then b else c)⟩

/-- `x or dflt` on an optional string, with Python truthiness
(`None` and `""` are falsy). -/
def py_or_str (v : Option String) (dflt : String) : String :=
  match v with
  | none => dflt
  | some s => if s.isEmpty then dflt else s

/-- Python truthiness of an optional string (`None` and `""` are falsy). -/
def opt_str_truthy (v : Option String) : Bool :=
  match v with
  | none => false
  | some s => !s.isEmpty

/-- Python truthiness of an optional integer (`None` and `0` are falsy). -/
def opt_int_truthy (v : Option Int) : Bool :=
  match v with
  | none => false
  | some n => n != 0

/-- Helper for `str_contains`: does `pat` occur in the character list? -/
def str_contains_aux (pat : List Char) : List Char → Bool
  | [] => pat.isEmpty
  | c :: rest => pat.isPrefixOf (c :: rest) || str_contains_aux pat rest

/-- Python's `pat in s` substring test. -/
def str_contains (s pat : String) : Bool :=
  str_contains_aux pat.data s.data

/-- `age_info` extracted from a plan document (`build_pdf_index.py`). -/
structure AgeInfo where
  age_min : Option Int := none
  age_max : Option Int := none
  age_avg : Option Int := none
deriving DecidableEq, Repr

/-- Nutrition ranges carried by a plan record; every field optional. -/
structure Nutrition where
  calories_min : Option Int := none
  calories_max : Option Int := none
  protein_min : Option Int := none
  protein_max : Option Int := none
  carbs_min : Option Int := none
  carbs_max : Option Int := none
  fat_min : Option Int := none
  fat_max : Option Int := none
  fiber_min : Option Int := none
  fiber_max : Option Int := none
deriving DecidableEq, Repr

/-- One meal option, as produced by the parsers and by the cycle
assembler's placeholder branch. -/
structure MealOption where
  name : String := ""
  calories : Int := 0
  protein : Int := 0
  carbs : Int := 0
  fat : Int := 0
  fiber : Int := 0
  ingredients : List String := []
  method : String := ""
  serving : String := ""
deriving DecidableEq, Repr

/-- One entry of an ML-generated plan's `meals` array. -/
structure MealGroup where
  meal_type : String := ""
  options : List MealOption := []
deriving DecidableEq, Repr

/-- A plan record of the PDF index (also the shape of a selected plan
handed to the cycle assembler: ML plans carry `ai_generated`/`meals`). -/
structure Plan where
  category : Option String := none
  region : Option String := none
  diet_type : Option String := none
  gender : Option String := none
  bmi_category : Option String := none
  activity : Option String := none
  activity_level : Option String := none
  age_info : Option AgeInfo := none
  relative_path : Option String := none
  file_path : Option String := none
  filename : Option String := none
  ingredients : List String := []
  nutrition : Nutrition := {}
  ai_generated : Bool := false
  meals : List MealGroup := []
deriving DecidableEq, Repr

/-- The `UserProfile` dataclass of `service/pdf_recommender.py`. -/
structure UserProfile where
  gender : String
  age : Int
  height : Int
  weight : Int
  bmi_category : String
  activity_level : String
  diet_type : String
  region : String
  goal : String
  health_conditions : List String := []
  allergies : List String := []
deriving DecidableEq, Repr

/-- The plain-dictionary user profile consumed by the goal-only and
exact-match recommenders (missing keys are `none`). -/
structure ProfileDict where
  goals : List String := []
  weight : Option Int := none
  target_weight : Option Int := none
  gender : Option String := none
  age : Option Int := none
  height : Option Int := none
  activity_level : Option String := none
  diet_type : Option String := none
  region : Option String := none
  medical_conditions : List String := []
deriving DecidableEq, Repr

/-- `PDFRecommender._normalize_diet`: lower-cases, maps listed variants,
falls back to `"vegetarian"` for `None`, `""` and anything unrecognized. -/
def normalize_diet (diet : Option String) : String :=
  match diet with
  | none => "vegetarian"
  | some d =>
    if d.isEmpty then "vegetarian"
    else
      let diet_lower := py_lower d
      if diet_lower ∈ ["vegeterian", "vegetarian", "veg"] then "vegetarian"
      else if diet_lower ∈ ["non_veg", "non veg", "non vegeterian", "non_vegetarian", "non vegetarian"] then "non_veg"
      else if diet_lower = "vegan" then "vegan"
      else "vegetarian"

/-- `PDFRecommender._normalize_bmi`. -/
def normalize_bmi (bmi : Option String) : String :=
  match bmi with
  | none => ""
  | some b =>
    if b.isEmpty then ""
    else
      let bmi_lower := py_lower b
      if bmi_lower ∈ ["normal", "normal weight", "normal_weight"] then "normal"
      else if bmi_lower ∈ ["overweight", "over weight", "over_weight"] then "overweight"
      else if bmi_lower ∈ ["obese"] then "obese"
      else if bmi_lower ∈ ["underweight", "under weight", "under_weight"] then "underweight"
      else bmi_lower

/-- `PDFRecommender._normalize_activity`. -/
def normalize_activity (activity : Option String) : String :=
  match activity with
  | none => ""
  | some a =>
    if a.isEmpty then ""
    else
      let activity_lower := py_lower a
      if str_contains activity_lower "heavy" || activity_lower = "very_active" then "heavy"
      else if str_contains activity_lower "moderate" then "moderate"
      else if str_contains activity_lower "light" then "light"
      else if str_contains activity_lower "sedentary" then "sedentary"
      else activity_lower

/-- `PDFRecommender.GOAL_TO_CATEGORY`: the goal → category folder table. -/
def goal_to_category (goal : String) : Option String :=
  if goal = "ayurvedic_detox" then some "ayurvedic_detox"
  else if goal = "digestive_detox" then some "gut_cleanse_digestive_detox"
  else if goal = "gut_detox" then some "gut_detox"
  else if goal = "hair_loss_thinning" then some "hair_loss"
  else if goal = "liver_detox" then some "liver_detox"
  else if goal = "probiotic_rich" then some "probiotic"
  else if goal = "skin_detox" then some "skin_detox"
  else if goal = "skin_health" then some "skin_health"
  else if goal = "weight_gain_underweight" then some "weight_gain"
  else if goal = "anti_inflammatory" then some "anti_inflammatory"
  else if goal = "anti_aging_sun_damage" then some "anti_aging"
  else if goal = "gas_bloating" then some "gas_bloating"
  else if goal = "protein_rich_balanced" then some "high_protein_balanced"
  else if goal = "high_protein_high_fiber" then some "high_protein_high_fiber"
  else if goal = "acne_oily_skin" then some "skin_health"
  else if goal = "weight_loss_pcos" then some "weight_loss_pcos"
  else if goal = "weight_loss_only" then some "weight_loss"
  else if goal = "weight_loss_type1_diabetes" then some "weight_loss_diabetes"
  else none

/-- The six-way conjunction tested by `hierarchical_exact_match` for one
plan record, given the already-resolved category folder. -/
def hierarchical_pred (user : UserProfile) (category : String) (plan : Plan) : Bool :=
  plan.category.getD "" == category &&
  plan.region == some user.region &&
  normalize_diet plan.diet_type == normalize_diet (some user.diet_type) &&
  plan.gender == some user.gender &&
  normalize_bmi plan.bmi_category == normalize_bmi (some user.bmi_category) &&
  normalize_activity plan.activity == normalize_activity (some user.activity_level)

/-- `PDFRecommender.hierarchical_exact_match`: resolve the goal through
`GOAL_TO_CATEGORY` (absent goal → empty result), then keep exactly the
records passing all six equality checks. -/
def hierarchical_exact_match (user : UserProfile) (plans : List Plan) : List Plan :=
  match goal_to_category user.goal with
  | none => []
  | some category => plans.filter (hierarchical_pred user category)

/-- `GoalOnlyRecommender.detect_primary_goal`: explicit `goals[0]`, else the
weight-target direction, else `"maintain"`.  Missing `weight` /
`target_weight` keys default to `0` as in `dict.get(key, 0)`. -/
def detect_primary_goal (profile : ProfileDict) : String :=
  match profile.goals with
  | g :: _ => g
  | [] =>
    let current_weight := profile.weight.getD 0
    let target_weight := profile.target_weight.getD 0
    if target_weight > current_weight then "weight_gain"
    else if target_weight < current_weight then "weight_loss"
    else "maintain"

/-- `GoalOnlyRecommender.normalize_diet_type`. -/
def goal_normalize_diet_type (diet : String) : String :=
  if diet.isEmpty then "vegetarian"
  else
    let diet_lower := py_lower diet
    if diet_lower ∈ ["non_vegetarian", "non_veg", "nonveg", "non vegetarian", "non vegeterian"] then "non_veg"
    else if diet_lower ∈ ["vegetarian", "veg", "vegeterian"] then "vegetarian"
    else if diet_lower ∈ ["vegan"] then "vegan"
    else if diet_lower ∈ ["eggetarian", "egg", "eggeterian"] then "eggetarian"
    else "vegetarian"

/-- The `goal_category_map` dictionary of `GoalOnlyRecommender.goal_match`
(`dict.get(goal, goal)`: unknown goals map to themselves). -/
def goal_category_map (goal : String) : String :=
  if goal = "weight_loss" then "weight_loss"
  else if goal = "weight_loss_only" then "weight_loss"
  else if goal = "weight_loss_pcos" then "weight_loss_pcos"
  else if goal = "weight_loss_type1_diabetes" then "weight_loss_diabetes"
  else if goal = "weight_gain" then "weight_gain"
  else if goal = "weight_gain_underweight" then "weight_gain"
  else if goal = "muscle_building" then "weight_gain"
  else if goal = "maintain" then "maintenance"
  else if goal = "clear_skin" then "skin_health"
  else if goal = "acne_oily_skin" then "skin_health"
  else if goal = "skin_health" then "skin_health"
  else if goal = "skin_detox" then "skin_detox"
  else if goal = "anti_aging" then "anti_aging"
  else if goal = "anti_aging_sun_damage" then "anti_aging"
  else if goal = "gut_health" then "gut_cleanse_digestive_detox"
  else if goal = "digestive_detox" then "gut_cleanse_digestive_detox"
  else if goal = "gut_detox" then "gut_detox"
  else if goal = "gas_bloating" then "gas_bloating"
  else if goal = "probiotic" then "probiotic"
  else if goal = "probiotic_rich" then "probiotic"
  else if goal = "detox" then "ayurvedic_detox"
  else if goal = "ayurvedic_detox" then "ayurvedic_detox"
  else if goal = "liver_detox" then "liver_detox"
  else if goal = "hair_loss" then "hair_loss"
  else if goal = "hair_loss_thinning" then "hair_loss"
  else if goal = "anti_inflammatory" then "anti_inflammatory"
  else if goal = "pcos" then "weight_loss_pcos"
  else if goal = "diabetes" then "weight_loss_diabetes"
  else if goal = "protein_rich_balanced" then "high_protein_balanced"
  else if goal = "high_protein_high_fiber" then "high_protein_high_fiber"
  else if goal = "energy" then "energy_boost"
  else if goal = "better_sleep" then "sleep_improvement"
  else goal

/-- `GoalOnlyRecommender.goal_match`: the user's diet is normalized, the
plan's diet is only `(plan.get('diet_type') or 'vegetarian').lower()`. -/
def goal_match (profile : ProfileDict) (plans : List Plan) : List Plan :=
  let primary_goal := detect_primary_goal profile
  let diet := goal_normalize_diet_type (profile.diet_type.getD "")
  let region := py_lower (profile.region.getD "")
  let target_category := goal_category_map primary_goal
  plans.filter (fun plan =>
    let plan_category := py_lower (py_or_str plan.category "")
    let plan_diet := py_lower (py_or_str plan.diet_type "vegetarian")
    let plan_region := py_lower (py_or_str plan.region "")
    plan_category == target_category && plan_diet == diet && plan_region == region)

/-- `ExactMatchRecommender.normalize_diet_type` (note: no falsy guard and a
pass-through fallback, unlike the goal-only version). -/
def exact_normalize_diet_type (diet : String) : String :=
  let diet_lower := py_lower diet
  if diet_lower ∈ ["non_vegetarian", "non_veg", "nonveg", "non vegetarian"] then "non_veg"
  else if diet_lower ∈ ["vegetarian", "veg"] then "vegetarian"
  else if diet_lower ∈ ["eggetarian", "eggitarian"] then "eggetarian"
  else if diet_lower ∈ ["vegan"] then "vegan"
  else diet_lower

/-- The plan age derived by `ExactMatchRecommender.exact_match` from
`age_info`: the exact bound when `age_min == age_max`, else the (truthy)
average, else the (truthy) minimum, else `None`. -/
def exact_plan_age (age_info : Option AgeInfo) : Option Int :=
  match age_info with
  | none => none
  | some info =>
    if info.age_min = info.age_max then info.age_min
    else if opt_int_truthy info.age_avg then info.age_avg
    else if opt_int_truthy info.age_min then info.age_min
    else none

/-- The `goal_category_map` of `ExactMatchRecommender.exact_match`, plus
the special `weight_loss` handling driven by medical conditions. -/
def exact_target_categories (primary_goal : String) (has_pcos has_diabetes : Bool) : List String :=
  if primary_goal = "weight_loss" then
    (["weight_loss"] ++ (if has_pcos then ["weight_loss_pcos"] else []))
      ++ (if has_diabetes then ["weight_loss_diabetes"] else [])
  else if primary_goal = "weight_gain" then ["weight_gain"]
  else if primary_goal = "muscle_building" then ["weight_gain", "high_protein_balanced", "high_protein_high_fiber"]
  else if primary_goal = "maintain" then ["maintenance"]
  else if primary_goal = "clear_skin" then ["skin_health", "skin_detox"]
  else if primary_goal = "skin_health" then ["skin_health", "skin_detox"]
  else if primary_goal = "gut_health" then ["gut_health", "gut_detox", "gut_cleanse_digestive_detox", "probiotic"]
  else if primary_goal = "energy" then ["energy_boost"]
  else if primary_goal = "better_sleep" then ["sleep_improvement"]
  else if primary_goal = "pcos" then ["weight_loss_pcos", "pcos"]
  else if primary_goal = "diabetes" then ["weight_loss_diabetes", "diabetes"]
  else if primary_goal = "hair_loss" then ["hair_loss"]
  else if primary_goal = "anti_aging" then ["anti_aging"]
  else if primary_goal = "detox" then ["detox", "liver_detox", "ayurvedic_detox", "skin_detox", "gut_detox"]
  else if primary_goal = "anti_inflammatory" then ["anti_inflammatory"]
  else if primary_goal = "probiotic" then ["probiotic", "gut_cleanse_digestive_detox"]
  else if primary_goal = "gas_bloating" then ["gas_bloating", "gut_cleanse_digestive_detox"]
  else [primary_goal]

/-- The per-plan conjunction tested by `ExactMatchRecommender.exact_match`. -/
def exact_match_pred (gender : String) (age : Int) (activity diet region : String)
    (target_categories : List String) (plan : Plan) : Bool :=
  let plan_gender := py_lower (py_or_str plan.gender "")
  let plan_activity := py_lower (py_or_str plan.activity (py_or_str plan.activity_level ""))
  let plan_diet := exact_normalize_diet_type (py_or_str plan.diet_type "vegetarian")
  let plan_region := py_lower (py_or_str plan.region "")
  let plan_category := py_lower (py_or_str plan.category "")
  let plan_age := exact_plan_age plan.age_info
  let activity_match := plan_activity == activity || (activity == "very_active" && plan_activity == "heavy")
  plan_age.isSome &&
  plan_gender == gender &&
  plan_age == some age &&
  activity_match &&
  plan_diet == diet &&
  plan_region == region &&
  plan_category ∈ target_categories

/-- `ExactMatchRecommender.exact_match`. -/
def exact_match (profile : ProfileDict) (plans : List Plan) : List Plan :=
  let gender := py_lower (profile.gender.getD "")
  let age := profile.age.getD 0
  let activity := py_lower (profile.activity_level.getD "")
  let diet := exact_normalize_diet_type (profile.diet_type.getD "")
  let region := py_lower (profile.region.getD "")
  let primary_goal := match profile.goals with | [] => "maintain" | g :: _ => g
  let has_pcos := profile.medical_conditions.any (fun c => str_contains (py_lower c) "pcos")
  let has_diabetes := profile.medical_conditions.any
    (fun c => str_contains (py_lower c) "diabetes" || str_contains (py_lower c) "diabetic")
  let target_categories := exact_target_categories primary_goal has_pcos has_diabetes
  plans.filter (exact_match_pred gender age activity diet region target_categories)

/-- The fixed meal-slot vocabulary of the cycle assembler, in dictionary
order of the Python literals. -/
def meal_slots : List String :=
  ["early_morning", "pre_activity", "breakfast", "mid_morning_snack",
   "lunch", "evening_snack", "dinner", "bedtime"]

/-- The `meal_options` dictionary of `generate_multi_plan_cycle`: exactly
the eight fixed slot keys, each holding a list of options.  The empty
record also models the `{}` returned by `_parse_meal_options_from_pdf` on
failure (both answer `[]` for every slot lookup). -/
structure MealOptions where
  early_morning : List MealOption := []
  pre_activity : List MealOption := []
  breakfast : List MealOption := []
  mid_morning_snack : List MealOption := []
  lunch : List MealOption := []
  evening_snack : List MealOption := []
  dinner : List MealOption := []
  bedtime : List MealOption := []
deriving DecidableEq, Repr

/-- `meal_options.get(meal_type, [])`. -/
def slot_options (mo : MealOptions) (meal_type : String) : List MealOption :=
  if meal_type = "early_morning" then mo.early_morning
  else if meal_type = "pre_activity" then mo.pre_activity
  else if meal_type = "breakfast" then mo.breakfast
  else if meal_type = "mid_morning_snack" then mo.mid_morning_snack
  else if meal_type = "lunch" then mo.lunch
  else if meal_type = "evening_snack" then mo.evening_snack
  else if meal_type = "dinner" then mo.dinner
  else if meal_type = "bedtime" then mo.bedtime
  else []

/-- `meal_options[meal_type].extend(options)` for a key of the dictionary;
a non-key `meal_type` leaves the record unchanged (the `in` check). -/
def extend_slot (mo : MealOptions) (meal_type : String) (opts : List MealOption) : MealOptions :=
  if meal_type = "early_morning" then { mo with early_morning := mo.early_morning ++ opts }
  else if meal_type = "pre_activity" then { mo with pre_activity := mo.pre_activity ++ opts }
  else if meal_type = "breakfast" then { mo with breakfast := mo.breakfast ++ opts }
  else if meal_type = "mid_morning_snack" then { mo with mid_morning_snack := mo.mid_morning_snack ++ opts }
  else if meal_type = "lunch" then { mo with lunch := mo.lunch ++ opts }
  else if meal_type = "evening_snack" then { mo with evening_snack := mo.evening_snack ++ opts }
  else if meal_type = "dinner" then { mo with dinner := mo.dinner ++ opts }
  else if meal_type = "bedtime" then { mo with bedtime := mo.bedtime ++ opts }
  else mo

/-- The ML branch of `generate_multi_plan_cycle`: re-key an AI-generated
plan's `meals` array into the fixed slot vocabulary (a group with an
unknown slot name or an empty option list is skipped). -/
def ml_meal_options (meals : List MealGroup) : MealOptions :=
  meals.foldl
    (fun mo mg =>
      if mg.options.isEmpty then mo
      else extend_slot mo (py_lower mg.meal_type) mg.options)
    {}

/-- The placeholder synthesized by `get_meal_for_option` when a slot has
zero options: named from the slot, all-zero nutrition. -/
def placeholder_meal (meal_type : String) : MealOption :=
  { name := py_title (py_replace_char meal_type '_' ' '),
    calories := 0, protein := 0, carbs := 0, fat := 0, fiber := 0,
    ingredients := [], method := "", serving := "" }

/-- `get_meal_for_option` (the closure inside `generate_multi_plan_cycle`):
placeholder on an empty slot, else `options[option_idx % len(options)]`.
The `getD` default is never reached since the index is reduced modulo the
(positive) length. -/
def get_meal_for_option (mo : MealOptions) (meal_type : String) (option_idx : Nat) : MealOption :=
  let options := slot_options mo meal_type
  if options.isEmpty then placeholder_meal meal_type
  else options.getD (option_idx % options.length) (placeholder_meal meal_type)

/-- `PDFRecommender._get_day_name`. -/
def get_day_name (day : Nat) : String :=
  ["Monday", "Tuesday", "Wednesday", "Thursday", "Friday", "Saturday", "Sunday"].getD
    ((day - 1) % 7) ""

/-- One selected plan paired with its assembled meal options (an entry of
`plans_with_meals`). -/
structure PlanWithMeals where
  plan : Plan
  meals : MealOptions
deriving DecidableEq, Repr

/-- One day of the produced schedule.  The wall-clock `date` stamp
(`datetime.now()` based) is outside the embedding; every other field of
the Python `daily_plan` dictionary is kept, with the eight meal slots as
an association list in dictionary order. -/
structure DailyPlan where
  day : Nat
  day_name : String
  plan_id : Option String
  plan_category : Option String
  plan_file : Option String
  nutrition : Nutrition
  meals : List (String × MealOption)
deriving DecidableEq, Repr

/-- The `daily_plan` dictionary built for `day` from the rotation's
current plan. -/
def mk_daily_plan (pw : PlanWithMeals) (day : Nat) : DailyPlan :=
  let option_index := (day - 1) % 3
  { day := day,
    day_name := get_day_name day,
    plan_id := pw.plan.relative_path,
    plan_category := pw.plan.category,
    plan_file := pw.plan.file_path,
    nutrition := pw.plan.nutrition,
    meals := meal_slots.map (fun s => (s, get_meal_for_option pw.meals s option_index)) }

/-- One iteration of the `plans_with_meals` loop: an AI-generated plan
(truthy `ai_generated`, or truthy `meals` with falsy `file_path`) is
re-keyed in place; a plan with a truthy `file_path` is parsed through the
external extractor `parse`; anything else is silently skipped. -/
def pwm_step (parse : String → MealOptions) (acc : List PlanWithMeals) (plan : Plan) : List PlanWithMeals :=
  if plan.ai_generated || (!plan.meals.isEmpty && !opt_str_truthy plan.file_path) then
    acc ++ [⟨plan, ml_meal_options plan.meals⟩]
  else
    match plan.file_path with
    | some fp => if fp.isEmpty then acc else acc ++ [⟨plan, parse fp⟩]
    | none => acc

/-- The `plans_with_meals` list built by `generate_multi_plan_cycle`. -/
def plans_with_meals (parse : String → MealOptions) (selected_plans : List Plan) : List PlanWithMeals :=
  selected_plans.foldl (pwm_step parse) []

/-- The day loop of `generate_multi_plan_cycle`: `remaining` days to emit,
current `day` number, current `plan_index` (< length of `pwm`). -/
def cycle_go (pwm : List PlanWithMeals) : Nat → Nat → Nat → List DailyPlan
  | 0, _, _ => []
  | remaining + 1, day, plan_index =>
    mk_daily_plan (pwm.getD plan_index ⟨{}, {}⟩) day ::
      cycle_go pwm remaining (day + 1) ((plan_index + 1) % pwm.length)

/-- `PDFRecommender.generate_multi_plan_cycle` (the class method at lines
208–324): raises on an empty selection, assembles `plans_with_meals`,
raises if that list is empty, then emits one `daily_plan` per day while
rotating `plan_index` through `plans_with_meals`.  The external PDF meal
extractor is the `parse` parameter (`_parse_meal_options_from_pdf`, which
returns `{}` — here the empty record — on failure, never raises). -/
def generate_multi_plan_cycle (parse : String → MealOptions)
    (selected_plans : List Plan) (days : Nat) : Except String (List DailyPlan) :=
  if selected_plans.isEmpty then
    Except.error "Must select at least 1 plan"
  else
    let pwm := plans_with_meals parse selected_plans
    if pwm.isEmpty then
      Except.error "Could not parse meal options from selected plans"
    else
      Except.ok (cycle_go pwm days 1 0)

/-- Modelled from the spec: the diet-compatibility partial order of the
Weighted Score Match hard filter (§4.3 step 1), whose implementation
(`PDFRecommender.filter_by_hard_constraints` / `score_plan`) is referenced
by the repository's tests but absent from the source tree.  A vegan user
accepts vegan only; vegetarian accepts {vegan, vegetarian}; eggetarian
accepts {vegan, vegetarian, eggetarian}; a non-veg user accepts anything. -/
def diet_compatible (user_diet plan_diet : String) : Bool :=
  if user_diet = "vegan" then plan_diet == "vegan"
  else if user_diet = "vegetarian" then plan_diet ∈ ["vegan", "vegetarian"]
  else if user_diet = "eggetarian" then plan_diet ∈ ["vegan", "vegetarian", "eggetarian"]
  else true

/-- Modelled from the spec: the Weighted Score Match hard filter (§4.3
step 1) of the scorer missing from the source tree — reject any record not
matching the user on gender, bmi_category and activity, or not
diet-compatible.  Region and category are not hard-filtered. -/
def ws_hard_filter (user : UserProfile) (plan : Plan) : Bool :=
  plan.gender.getD "" == user.gender &&
  plan.bmi_category.getD "" == user.bmi_category &&
  plan.activity.getD "" == user.activity_level &&
  diet_compatible user.diet_type (plan.diet_type.getD "")

/-- Modelled from the spec: the age contribution of the Weighted Score
Match (§4.3 step 2) — +10 inside the record's age range, +5 within ±5
years of it, 0 otherwise or when `age_info` is absent. -/
def ws_age_score (age : Int) (age_info : Option AgeInfo) : Int :=
  match age_info with
  | none => 0
  | some info =>
    match info.age_min, info.age_max with
    | some lo, some hi =>
      if lo ≤ age ∧ age ≤ hi then 10
      else if lo - 5 ≤ age ∧ age ≤ hi + 5 then 5
      else 0
    | _, _ => 0

/-- Modelled from the spec: the additive score of the Weighted Score Match
(§4.3 step 2) for a record surviving the hard filter.  `goal_table` is the
fixed goal → category-list configuration mapping (possibly conditioned on
the user's health conditions, e.g. `weight_loss` also accepting
`weight_loss_pcos` for a pcos user), kept as a parameter. -/
def weighted_score (goal_table : UserProfile → List String) (user : UserProfile) (plan : Plan) : Int :=
  (if plan.category.getD "" ∈ goal_table user then 1000 else 0) +
  (if plan.diet_type.getD "" = user.diet_type then 100 else 0) +
  (if plan.region.getD "" = user.region then 10 else 0) +
  (if user.health_conditions.any (fun c => str_contains (plan.category.getD "") c) then 10 else 0) +
  ws_age_score user.age plan.age_info

/-- Modelled from the spec: the allergen safety check of the Weighted
Score Match (§4.3 step 2) — some user allergy tag expands through the
fixed allergen → ingredient-keyword table (`allergen_table`, e.g.
`dairy ↦ [milk, paneer, curd, yogurt, butter, ghee, cheese]`) to a keyword
present in the record's ingredient set. -/
def allergen_hit (allergen_table : String → List String) (user : UserProfile) (plan : Plan) : Bool :=
  user.allergies.any (fun tag => (allergen_table tag).any (fun kw => kw ∈ plan.ingredients))

/-- Modelled from the spec: the Weighted Score Match strategy (§4.3),
absent from the source tree.  Hard-filter, drop every allergen-hit record
(spec: score −1000, excluded from results), score the survivors, sort
descending by score and return the top `k`.  The `adjusted_nutrition`
annotation of §4.3 step 3 is omitted: it alters neither membership nor
order of the result. -/
def weighted_score_match (goal_table : UserProfile → List String)
    (allergen_table : String → List String) (user : UserProfile)
    (plans : List Plan) (k : Nat) : List (Plan × Int) :=
  let survivors := plans.filter (ws_hard_filter user)
  let scored := survivors.filterMap
    (fun p => if allergen_hit allergen_table user p then none
              else some (p, weighted_score goal_table user p))
  (scored.insertionSort (fun x y => x.2 ≥ y.2)).take k

/-- Tagged form of a selected plan after meal-option assembly: the branch
`generate_multi_plan_cycle` takes for a plan that is not skipped. -/
def to_pwm (parse : String → MealOptions) (plan : Plan) : PlanWithMeals :=
  if plan.ai_generated || (!plan.meals.isEmpty && !opt_str_truthy plan.file_path) then
    ⟨plan, ml_meal_options plan.meals⟩
  else
    ⟨plan, parse (plan.file_path.getD "")⟩

/-- The §4.5 input contract of the Cycle Assembler: a selected plan is
either pre-generated (AI flag or attached meal options) or carries a
document locator.  Exactly the plans satisfying this enter
`plans_with_meals`; anything else is skipped by the loop. -/
def well_formed_selected (plan : Plan) : Bool :=
  plan.ai_generated || !plan.meals.isEmpty || opt_str_truthy plan.file_path

/-- Concrete goal → category-list table for the C1 witness. -/
def c1_goal_table : UserProfile → List String := fun _ => ["weight_loss", "weight_loss_pcos"]

/-- Concrete allergen → ingredient-keyword table (the spec's dairy row)
for the C1 witness. -/
def c1_allergen_table : String → List String := fun tag =>
  if tag = "dairy" then ["milk", "paneer", "curd", "yogurt", "butter", "ghee", "cheese"] else []

/-- Dairy-allergic test user for the C1 witness. -/
def c1_user : UserProfile :=
  { gender := "female", age := 30, height := 160, weight := 78,
    bmi_category := "obese", activity_level := "light", diet_type := "vegetarian",
    region := "north_indian", goal := "weight_loss", health_conditions := ["pcos"],
    allergies := ["dairy"] }

/-- Maximum-score record containing a dairy keyword, for the C1 witness. -/
def c1_plan : Plan :=
  { category := some "weight_loss_pcos", region := some "north_indian",
    diet_type := some "vegetarian", gender := some "female",
    bmi_category := some "obese", activity := some "light",
    ingredients := ["oats", "milk", "almonds"] }

/-- Test user for the C2 witness. -/
def c2_user : UserProfile :=
  { gender := "female", age := 30, height := 160, weight := 78,
    bmi_category := "overweight", activity_level := "light", diet_type := "vegetarian",
    region := "north_indian", goal := "weight_loss_pcos" }

/-- Index record matching `c2_user` on all six axes (with variant
spellings on the normalized axes). -/
def c2_plan : Plan :=
  { category := some "weight_loss_pcos", region := some "north_indian",
    diet_type := some "vegeterian", gender := some "female",
    bmi_category := some "Over Weight", activity := some "light" }

/-- Meal extractor whose result is empty for every document, modelling
`_parse_meal_options_from_pdf` returning `{}` for each selected file. -/
def c3_parse : String → MealOptions := fun _ => {}

/-- Document-backed selected plan (C3 failing input). -/
def c3_plan_a : Plan :=
  { category := some "weight_loss", file_path := some "plans/weight_loss/a.txt",
    relative_path := some "weight_loss/a.txt" }

/-- Second document-backed selected plan (C3 failing input). -/
def c3_plan_b : Plan :=
  { category := some "weight_gain", file_path := some "plans/weight_gain/b.txt",
    relative_path := some "weight_gain/b.txt" }

/-- The schedule the assembler emits on the C3 failing input. -/
def c3_schedule : List DailyPlan :=
  (generate_multi_plan_cycle c3_parse [c3_plan_a, c3_plan_b] 7).toOption.getD []

/-- A single meal option used by the C4/C5 witnesses. -/
def c4_lunch : MealOption := { name := "Dal Rice", calories := 450 }

/-- AI-generated selected plan with one lunch option (C4 witness). -/
def c4_plan : Plan :=
  { ai_generated := true, relative_path := some "ml_plan",
    meals := [{ meal_type := "Lunch", options := [c4_lunch] }] }

/-- The 14-day schedule of the C4 witness. -/
def c4_schedule : List DailyPlan :=
  (generate_multi_plan_cycle c3_parse [c4_plan] 14).toOption.getD []

/-- Parametrized AI-generated plan for the C5 witness. -/
def c5_plan (name : String) : Plan :=
  { ai_generated := true, relative_path := some name,
    meals := [{ meal_type := "lunch", options := [c4_lunch] }] }

/-- Three selected plans for the C5 witness. -/
def c5_selected : List Plan := [c5_plan "p0", c5_plan "p1", c5_plan "p2"]

/-- The 7-day schedule of the C5 witness. -/
def c5_schedule : List DailyPlan :=
  (generate_multi_plan_cycle c3_parse c5_selected 7).toOption.getD []

/-- Relaxed-match profile whose diet is the variant spelling `"veg"`
(C7 failing input). -/
def c7_profile : ProfileDict :=
  { goals := ["weight_loss"], diet_type := some "veg", region := some "north_indian" }

/-- Index record agreeing with `c7_profile` on category and region and
carrying the same raw diet string `"veg"` (C7 failing input). -/
def c7_plan : Plan :=
  { category := some "weight_loss", diet_type := some "veg", region := some "north_indian" }

/-- Goal-less profile whose target weight exceeds the current weight
(C8 witness). -/
def c8_profile : ProfileDict := { weight := some 60, target_weight := some 72 }

/-- Profile for the C9 witness. -/
def c9_profile : ProfileDict :=
  { goals := ["maintain"], gender := some "female", age := some 25,
    activity_level := some "light", diet_type := some "vegetarian",
    region := some "north_indian" }

/-- Record with an age range averaging the user's age (C9 witness). -/
def c9_plan : Plan :=
  { category := some "maintenance", region := some "north_indian",
    diet_type := some "vegetarian", gender := some "female", activity := some "light",
    age_info := some { age_min := some 20, age_max := some 30, age_avg := some 25 } }

/-- Vegetarian user for the C10 eggetarian-collapse scenario. -/
def c10_user : UserProfile :=
  { gender := "female", age := 30, height := 160, weight := 60,
    bmi_category := "normal", activity_level := "light", diet_type := "vegetarian",
    region := "south_indian", goal := "skin_health" }

/-- Eggetarian-labelled record otherwise identical to `c10_user`'s axes. -/
def c10_plan : Plan :=
  { category := some "skin_health", region := some "south_indian",
    diet_type := some "eggetarian", gender := some "female",
    bmi_category := some "normal", activity := some "light" }

/-! Helper lemmas. -/

theorem list_getD_eq_get {α : Type} (l : List α) (n : Nat) (d : α) (h : n < l.length) :
    l.getD n d = l.get ⟨n, h⟩ := by
  induction l generalizing n with
  | nil => simp at h
  | cons a t ih =>
    cases n with
    | zero => rfl
    | succ m => exact ih m (by simpa using h)

theorem list_getD_mem {α : Type} (l : List α) (n : Nat) (d : α) (h : n < l.length) :
    l.getD n d ∈ l := by
  rw [list_getD_eq_get l n d h]
  exact List.get_mem l n h

theorem except_eq_ok_of_toOption {ε α : Type} (e : Except ε α) (a : α)
    (h : e.toOption = some a) : e = Except.ok a := by
  cases e with
  | ok b => simpa [Except.toOption] using congrArg some (Option.some.injEq .. ▸ h)
  | error c => simp [Except.toOption] at h

theorem normalize_diet_range (d : Option String) :
    normalize_diet d = "vegetarian" ∨ normalize_diet d = "non_veg" ∨ normalize_diet d = "vegan" := by
  unfold normalize_diet
  cases d with
  | none => left; rfl
  | some s =>
    dsimp only
    split
    · left; rfl
    · split
      · left; rfl
      · split
        · right; left; rfl
        · split
          · right; right; rfl
          · left; rfl

theorem goal_normalize_diet_type_range (d : String) :
    goal_normalize_diet_type d = "vegetarian" ∨ goal_normalize_diet_type d = "non_veg" ∨
    goal_normalize_diet_type d = "vegan" ∨ goal_normalize_diet_type d = "eggetarian" := by
  unfold goal_normalize_diet_type
  dsimp only
  split
  · left; rfl
  · split
    · right; left; rfl
    · split
      · left; rfl
      · split
        · right; right; left; rfl
        · split
          · right; right; right; rfl
          · left; rfl

theorem cycle_go_length (pwm : List PlanWithMeals) :
    ∀ (n day pidx : Nat), (cycle_go pwm n day pidx).length = n := by
  intro n
  induction n with
  | zero => intro day pidx; rfl
  | succ m ih => intro day pidx; simp [cycle_go, ih]

theorem cycle_go_mem (pwm : List PlanWithMeals) :
    ∀ (n day pidx : Nat) (dp : DailyPlan), pidx < pwm.length →
      dp ∈ cycle_go pwm n day pidx →
      ∃ pw, pw ∈ pwm ∧ dp = mk_daily_plan pw dp.day := by
  intro n
  induction n with
  | zero => intro day pidx dp _ hmem; simp [cycle_go] at hmem
  | succ m ih =>
    intro day pidx dp hpidx hmem
    rw [cycle_go, List.mem_cons] at hmem
    rcases hmem with hdp | htail
    · refine ⟨pwm.getD pidx ⟨{}, {}⟩, list_getD_mem pwm pidx _ hpidx, ?_⟩
      rw [hdp]
      rfl
    · exact ih (day + 1) ((pidx + 1) % pwm.length) dp
        (Nat.mod_lt _ (by omega)) htail

theorem cycle_go_get (pwm : List PlanWithMeals) :
    ∀ (n i day pidx : Nat), i < n → pidx < pwm.length →
      (cycle_go pwm n day pidx).get? i =
        some (mk_daily_plan (pwm.getD ((pidx + i) % pwm.length) ⟨{}, {}⟩) (day + i)) := by
  intro n
  induction n with
  | zero => intro i day pidx hi; omega
  | succ m ih =>
    intro i day pidx hi hpidx
    cases i with
    | zero =>
      rw [cycle_go]
      simp [Nat.mod_eq_of_lt hpidx]
    | succ j =>
      rw [cycle_go]
      show (cycle_go pwm m (day + 1) ((pidx + 1) % pwm.length)).get? j = _
      rw [ih j (day + 1) ((pidx + 1) % pwm.length) (by omega) (Nat.mod_lt _ (by omega))]
      have h1 : ((pidx + 1) % pwm.length + j) % pwm.length = (pidx + (j + 1)) % pwm.length := by
        rw [Nat.mod_add_mod]
        congr 1
        omega
      have h2 : day + 1 + j = day + (j + 1) := by omega
      rw [h1, h2]

theorem generate_ok_inv (parse : String → MealOptions) (selected : List Plan)
    (days : Nat) (schedule : List DailyPlan)
    (h : generate_multi_plan_cycle parse selected days = Except.ok schedule) :
    selected.isEmpty = false ∧ (plans_with_meals parse selected).isEmpty = false ∧
      schedule = cycle_go (plans_with_meals parse selected) days 1 0 := by
  unfold generate_multi_plan_cycle at h
  by_cases h1 : selected.isEmpty = true
  · rw [if_pos h1] at h
    exact absurd h (by simp)
  · rw [if_neg h1] at h
    dsimp only at h
    by_cases h2 : (plans_with_meals parse selected).isEmpty = true
    · rw [if_pos h2] at h
      exact absurd h (by simp)
    · rw [if_neg h2] at h
      simp only [Except.ok.injEq] at h
      exact ⟨by simpa using h1, by simpa using h2, h.symm⟩

theorem pwm_step_wf (parse : String → MealOptions) (acc : List PlanWithMeals)
    (plan : Plan) (hwf : well_formed_selected plan = true) :
    pwm_step parse acc plan = acc ++ [to_pwm parse plan] := by
  unfold pwm_step to_pwm
  cases hai : plan.ai_generated with
  | true => simp [hai]
  | false =>
    cases hfp : plan.file_path with
    | none =>
      unfold well_formed_selected at hwf
      rw [hai, hfp] at hwf
      simp only [opt_str_truthy, Bool.or_false, Bool.false_or] at hwf
      simp [hai, hfp, opt_str_truthy, hwf]
    | some fp =>
      by_cases hemp : fp.isEmpty = true
      · unfold well_formed_selected at hwf
        rw [hai, hfp] at hwf
        simp only [opt_str_truthy, hemp, Bool.not_true, Bool.or_false, Bool.false_or] at hwf
        simp [hai, hfp, opt_str_truthy, hemp, hwf]
      · by_cases hm : plan.meals.isEmpty = true
        · simp [hai, hfp, opt_str_truthy, hemp, hm]
        · simp [hai, hfp, opt_str_truthy, hemp, hm]

theorem pwm_foldl (parse : String → MealOptions) :
    ∀ (l : List Plan) (acc : List PlanWithMeals),
      (∀ p ∈ l, well_formed_selected p = true) →
      l.foldl (pwm_step parse) acc = acc ++ l.map (to_pwm parse) := by
  intro l
  induction l with
  | nil => intro acc _; simp
  | cons p t ih =>
    intro acc hwf
    rw [List.foldl_cons, pwm_step_wf parse acc p (hwf p (by simp)),
      ih _ (fun q hq => hwf q (by simp [hq]))]
    simp

/-! Claim theorems. -/

/-- C1: allergen rejection is absolute in the Weighted Score Match — for
every goal table, allergen table, user profile, plan set and cutoff, a
record one of whose ingredient keywords is reached from some user allergy
tag through the allergen table never appears in the output, with any
score.  (The strategy itself is modelled from spec §4.3; its
implementation is absent from the source tree.) -/
theorem C1_allergen_rejection_absolute
    (goal_table : UserProfile → List String) (allergen_table : String → List String)
    (user : UserProfile) (plans : List Plan) (k : Nat) (plan : Plan) (s : Int)
    (h : allergen_hit allergen_table user plan = true) :
    (plan, s) ∉ weighted_score_match goal_table allergen_table user plans k := by
  intro hmem
  unfold weighted_score_match at hmem
  have h1 := List.take_subset _ _ hmem
  rw [List.mem_insertionSort] at h1
  rw [List.mem_filterMap] at h1
  obtain ⟨a, -, ha⟩ := h1
  by_cases hh : allergen_hit allergen_table user a = true
  · rw [if_pos hh] at ha
    exact Option.noConfusion ha
  · rw [if_neg hh] at ha
    simp only [Option.some.injEq, Prod.mk.injEq] at ha
    obtain ⟨rfl, -⟩ := ha
    exact hh h

/-- Witness for C1: a dairy-allergic user and a milk-containing record
that matches the goal, diet and region perfectly is still excluded. -/
theorem C1_allergen_rejection_absolute_witness :
    (c1_plan, weighted_score c1_goal_table c1_user c1_plan) ∉
      weighted_score_match c1_goal_table c1_allergen_table c1_user [c1_plan] 10 :=
  C1_allergen_rejection_absolute c1_goal_table c1_allergen_table c1_user [c1_plan] 10
    c1_plan _ (by decide)

/-- C2: Strict Hierarchical Match membership — when the goal resolves
through `GOAL_TO_CATEGORY`, a record is in the result iff it is in the
index and all six equalities hold (category, raw region, normalized diet,
raw gender, normalized BMI, normalized activity); when the goal is absent
from the table the result is empty. -/
theorem C2_strict_hierarchical_membership (user : UserProfile) (plans : List Plan) (plan : Plan) :
    (∀ category, goal_to_category user.goal = some category →
       (plan ∈ hierarchical_exact_match user plans ↔
         plan ∈ plans ∧
         plan.category.getD "" = category ∧
         plan.region = some user.region ∧
         normalize_diet plan.diet_type = normalize_diet (some user.diet_type) ∧
         plan.gender = some user.gender ∧
         normalize_bmi plan.bmi_category = normalize_bmi (some user.bmi_category) ∧
         normalize_activity plan.activity = normalize_activity (some user.activity_level))) ∧
    (goal_to_category user.goal = none → hierarchical_exact_match user plans = []) := by
  constructor
  · intro category hcat
    unfold hierarchical_exact_match
    rw [hcat]
    rw [List.mem_filter]
    unfold hierarchical_pred
    simp only [Bool.and_eq_true, beq_iff_eq]
    tauto
  · intro hnone
    unfold hierarchical_exact_match
    rw [hnone]

/-- Witness for C2: a record agreeing with the user on all six axes
(with variant spellings on the normalized ones) is kept, out of a
two-record index. -/
theorem C2_strict_hierarchical_membership_witness :
    c2_plan ∈ hierarchical_exact_match c2_user [c2_plan, { c2_plan with gender := some "male" }] :=
  ((C2_strict_hierarchical_membership c2_user _ c2_plan).1 "weight_loss_pcos" rfl).mpr
    ⟨by decide, by decide, by decide, by decide, by decide, by decide, by decide⟩

/-- C3 (code bug evidence): two selected plans both carry file paths and
both meal extractions come back empty, yet `generate_multi_plan_cycle`
returns a full 7-day schedule in which every slot of every day is the
all-zero placeholder — it does not raise, contradicting the fail-loudly
contract (it only raises when the selection is empty, as the last
conjunct confirms). -/
theorem C3_cycle_assembler_silent_placeholder_week :
    (generate_multi_plan_cycle c3_parse [c3_plan_a, c3_plan_b] 7).toOption = some c3_schedule ∧
    c3_schedule.length = 7 ∧
    (c3_schedule.all fun dp => dp.meals.all fun sm => sm.2 == placeholder_meal sm.1) = true ∧
    (generate_multi_plan_cycle c3_parse [] 7).isOk = false := by
  decide

/-- C4: slot completeness and option-wrap totality — every emitted daily
plan carries exactly the eight fixed slots, each resolved from some
assembled plan via `get_meal_for_option` at option index `(day−1) mod 3`;
an empty slot yields the slot-named all-zero placeholder; a non-empty
slot with `k` options yields option `((d−1) mod 3) mod k` by a
provably in-range access; and a slot with exactly one option resolves to
that option on every day of a 14-day cycle. -/
theorem C4_slot_completeness_option_wrap :
    (∀ (parse : String → MealOptions) (selected : List Plan) (days : Nat)
       (schedule : List DailyPlan),
       generate_multi_plan_cycle parse selected days = Except.ok schedule →
       schedule.length = days ∧
       ∀ dp ∈ schedule, ∃ pw, pw ∈ plans_with_meals parse selected ∧
         dp.meals = meal_slots.map (fun s => (s, get_meal_for_option pw.meals s ((dp.day - 1) % 3))) ∧
         dp.meals.map Prod.fst = meal_slots) ∧
    (∀ (mo : MealOptions) (slot : String) (idx : Nat), slot_options mo slot = [] →
       get_meal_for_option mo slot idx = placeholder_meal slot ∧
       (placeholder_meal slot).name = py_title (py_replace_char slot '_' ' ') ∧
       (placeholder_meal slot).calories = 0 ∧ (placeholder_meal slot).protein = 0 ∧
       (placeholder_meal slot).carbs = 0 ∧ (placeholder_meal slot).fat = 0 ∧
       (placeholder_meal slot).fiber = 0) ∧
    (∀ (mo : MealOptions) (slot : String) (idx : Nat), slot_options mo slot ≠ [] →
       ∃ h : idx % (slot_options mo slot).length < (slot_options mo slot).length,
         get_meal_for_option mo slot idx =
           (slot_options mo slot).get ⟨idx % (slot_options mo slot).length, h⟩) ∧
    (∀ (mo : MealOptions) (slot : String) (opt : MealOption) (d : Nat),
       slot_options mo slot = [opt] → 1 ≤ d → d ≤ 14 →
       get_meal_for_option mo slot ((d - 1) % 3) = opt) := by
  refine ⟨?_, ?_, ?_, ?_⟩
  · intro parse selected days schedule hok
    obtain ⟨-, hne, hsched⟩ := generate_ok_inv parse selected days schedule hok
    have hlen : 0 < (plans_with_meals parse selected).length := by
      cases hl : plans_with_meals parse selected with
      | nil => rw [hl] at hne; simp at hne
      | cons a t => simp [hl]
    constructor
    · rw [hsched]; exact cycle_go_length _ days 1 0
    · intro dp hdp
      rw [hsched] at hdp
      obtain ⟨pw, hpwmem, hdpeq⟩ := cycle_go_mem _ days 1 0 dp hlen hdp
      refine ⟨pw, hpwmem, ?_, ?_⟩
      · rw [hdpeq]
        rfl
      · rw [hdpeq]
        show (meal_slots.map fun s => (s, _)).map Prod.fst = meal_slots
        rw [List.map_map]
        rfl
  · intro mo slot idx hempty
    refine ⟨?_, rfl, rfl, rfl, rfl, rfl, rfl⟩
    unfold get_meal_for_option
    rw [hempty]
    rfl
  · intro mo slot idx hne
    have hlen : 0 < (slot_options mo slot).length := by
      cases hl : slot_options mo slot with
      | nil => exact absurd hl hne
      | cons a t => simp
    refine ⟨Nat.mod_lt _ hlen, ?_⟩
    unfold get_meal_for_option
    rw [if_neg (by simpa [List.isEmpty_iff] using hne)]
    exact list_getD_eq_get _ _ _ (Nat.mod_lt _ hlen)
  · intro mo slot opt d hone h1 h2
    unfold get_meal_for_option
    rw [hone]
    simp [Nat.mod_one]

/-- Witness for C4: a 14-day cycle over one AI plan is emitted with
exactly 14 daily plans. -/
theorem C4_slot_completeness_option_wrap_witness : c4_schedule.length = 14 :=
  (C4_slot_completeness_option_wrap.1 c3_parse [c4_plan] 14 c4_schedule
    (except_eq_ok_of_toOption _ _ (by decide))).1

/-- C5: round-robin — for selected plans each satisfying the §4.5 input
contract (pre-generated or document-backed), the daily plan for day `d`
is built from selected plan number `(d−1) mod P`, carrying that plan's
provenance and meal options. -/
theorem C5_round_robin (parse : String → MealOptions) (selected : List Plan) (days : Nat)
    (hP1 : 1 ≤ selected.length) (hP5 : selected.length ≤ 5)
    (hwf : ∀ p ∈ selected, well_formed_selected p = true) :
    ∀ schedule, generate_multi_plan_cycle parse selected days = Except.ok schedule →
      ∀ d, 1 ≤ d → d ≤ days →
        schedule.get? (d - 1) =
          some (mk_daily_plan (to_pwm parse (selected.getD ((d - 1) % selected.length) {})) d) := by
  intro schedule hok d hd1 hd2
  obtain ⟨-, -, hsched⟩ := generate_ok_inv parse selected days schedule hok
  have hpwm : plans_with_meals parse selected = selected.map (to_pwm parse) := by
    unfold plans_with_meals
    rw [pwm_foldl parse selected [] hwf]
    simp
  have hlen : (selected.map (to_pwm parse)).length = selected.length := by simp
  rw [hsched, hpwm]
  rw [cycle_go_get (selected.map (to_pwm parse)) days (d - 1) 1 0 (by omega) (by omega)]
  have hidx : (0 + (d - 1)) % (selected.map (to_pwm parse)).length =
      (d - 1) % selected.length := by
    rw [hlen, Nat.zero_add]
  have hday : 1 + (d - 1) = d := by omega
  rw [hidx, hday]
  congr 1
  congr 1
  rw [list_getD_eq_get _ _ _ (by rw [hlen]; exact Nat.mod_lt _ (by omega))]
  rw [list_getD_eq_get selected ((d - 1) % selected.length) {} (Nat.mod_lt _ (by omega))]
  simp

/-- Witness for C5: with 3 selected plans and 7 days, day 5 is built from
plan `(5−1) mod 3 = 1`, and the plan-id provenance of the whole week is
the sequence `[p0, p1, p2, p0, p1, p2, p0]`. -/
theorem C5_round_robin_witness :
    c5_schedule.get? 4 =
      some (mk_daily_plan (to_pwm c3_parse (c5_selected.getD (4 % 3) {})) 5) ∧
    c5_schedule.map DailyPlan.plan_id =
      [some "p0", some "p1", some "p2", some "p0", some "p1", some "p2", some "p0"] :=
  ⟨C5_round_robin c3_parse c5_selected 7 (by decide) (by decide) (by decide) c5_schedule
      (except_eq_ok_of_toOption _ _ (by decide)) 5 (by decide) (by decide),
   by decide⟩

/-- C6 (counterexample): the variant spellings are NOT all normalized to
one canonical value — `_normalize_diet` sends `"non veg"` to `"non_veg"`
but `"Non-Veg"` (hyphenated, unlisted) falls through to `"vegetarian"`. -/
theorem C6_normalizer_counterexample :
    ¬ (normalize_diet (some "Non-Veg") = normalize_diet (some "non veg") ∧
       normalize_diet (some "non veg") = normalize_diet (some "nonveg")) := by
  decide

/-- C6 (amended): both diet normalizers are idempotent, and the three
variant spellings land as follows: in `_normalize_diet`, `"non veg"` ↦
`non_veg` while `"Non-Veg"` and `"nonveg"` fall through to `vegetarian`;
in `normalize_diet_type` of the goal-only recommender, `"nonveg"` ↦
`non_veg` while `"Non-Veg"` and `"non veg"` fall through to
`vegetarian` — so the three spellings do not all agree in either
normalizer. -/
theorem C6_normalizer_idempotent_amended :
    (∀ x : Option String, normalize_diet (some (normalize_diet x)) = normalize_diet x) ∧
    (∀ x : String, goal_normalize_diet_type (goal_normalize_diet_type x) = goal_normalize_diet_type x) ∧
    normalize_diet (some "Non-Veg") = "vegetarian" ∧
    normalize_diet (some "non veg") = "non_veg" ∧
    normalize_diet (some "nonveg") = "vegetarian" ∧
    goal_normalize_diet_type "Non-Veg" = "vegetarian" ∧
    goal_normalize_diet_type "non veg" = "vegetarian" ∧
    goal_normalize_diet_type "nonveg" = "non_veg" := by
  refine ⟨?_, ?_, by decide, by decide, by decide, by decide, by decide, by decide⟩
  · intro x
    rcases normalize_diet_range x with h | h | h <;> rw [h] <;> decide
  · intro x
    rcases goal_normalize_diet_type_range x with h | h | h | h <;> rw [h] <;> decide

/-- C7 (code bug evidence): Relaxed Goal Match normalizes only the user's
diet; the plan's diet is merely lower-cased raw text.  A user whose diet
is spelled `"veg"` (normalized to `vegetarian`) and a record carrying the
very same raw spelling `"veg"`, agreeing on category and region, produce
an empty result instead of a match. -/
theorem C7_relaxed_match_raw_plan_diet :
    goal_normalize_diet_type "veg" = "vegetarian" ∧
    py_lower (py_or_str c7_plan.diet_type "vegetarian") = "veg" ∧
    goal_match c7_profile [c7_plan] = [] := by
  decide

/-- C8: three-tier goal resolution — `detect_primary_goal` returns the
head of a non-empty explicit goals list; otherwise `weight_gain` when the
target weight exceeds the current weight, `weight_loss` when it is below,
and `maintain` when they are equal (missing weights default to 0). -/
theorem C8_three_tier_goal_resolution (profile : ProfileDict) :
    (∀ g rest, profile.goals = g :: rest → detect_primary_goal profile = g) ∧
    (profile.goals = [] → profile.target_weight.getD 0 > profile.weight.getD 0 →
       detect_primary_goal profile = "weight_gain") ∧
    (profile.goals = [] → profile.target_weight.getD 0 < profile.weight.getD 0 →
       detect_primary_goal profile = "weight_loss") ∧
    (profile.goals = [] → profile.target_weight.getD 0 = profile.weight.getD 0 →
       detect_primary_goal profile = "maintain") := by
  refine ⟨?_, ?_, ?_, ?_⟩
  · intro g rest hg
    unfold detect_primary_goal
    rw [hg]
  all_goals intro hg hw
  all_goals unfold detect_primary_goal
  all_goals rw [hg]
  all_goals dsimp only
  · rw [if_pos hw]
  · rw [if_neg (by omega), if_pos hw]
  · rw [if_neg (by omega), if_neg (by omega)]

/-- Witness for C8: no explicit goals and target 72 kg over current 60 kg
resolves to `weight_gain`. -/
theorem C8_three_tier_goal_resolution_witness : detect_primary_goal c8_profile = "weight_gain" :=
  (C8_three_tier_goal_resolution c8_profile).2.1 rfl (by decide)

/-- C9: the exact-match recommender's undocumented age hard filter —
every record in its output has a derivable plan age (so in particular
parsable `age_info`) equal to the user's age, and every record without
`age_info` is excluded no matter what. -/
theorem C9_exact_match_age_hard_filter (profile : ProfileDict) (plans : List Plan) (plan : Plan) :
    (plan ∈ exact_match profile plans →
       exact_plan_age plan.age_info = some (profile.age.getD 0)) ∧
    (plan.age_info = none → plan ∉ exact_match profile plans) := by
  constructor
  · intro hmem
    unfold exact_match at hmem
    rw [List.mem_filter] at hmem
    obtain ⟨-, hpred⟩ := hmem
    unfold exact_match_pred at hpred
    simp only [Bool.and_eq_true, beq_iff_eq] at hpred
    exact hpred.1.1.1.1.2
  · intro hnone hmem
    unfold exact_match at hmem
    rw [List.mem_filter] at hmem
    obtain ⟨-, hpred⟩ := hmem
    unfold exact_match_pred at hpred
    simp only [Bool.and_eq_true, beq_iff_eq] at hpred
    have h1 := hpred.1.1.1.1.1.1
    rw [hnone] at h1
    simp [exact_plan_age] at h1

/-- Witness for C9: a fully matching record with age range 20–30
(average 25) is returned for a 25-year-old user, and the derived age
equals the user's. -/
theorem C9_exact_match_age_hard_filter_witness :
    exact_plan_age c9_plan.age_info = some (c9_profile.age.getD 0) :=
  (C9_exact_match_age_hard_filter c9_profile [c9_plan] c9_plan).1 (by decide)

/-- C10: the strict-match diet normalizer collapses every unrecognized
diet string — in particular the documented enum value `"eggetarian"` — to
`"vegetarian"`, so an eggetarian-labelled record and a vegetarian user
compare as equal on the diet axis of Strict Hierarchical Match (the
record is returned). -/
theorem C10_unrecognized_diet_collapses :
    (∀ d : String, ¬d.isEmpty = true →
       py_lower d ∉ ["vegeterian", "vegetarian", "veg"] →
       py_lower d ∉ ["non_veg", "non veg", "non vegeterian", "non_vegetarian", "non vegetarian"] →
       py_lower d ≠ "vegan" →
       normalize_diet (some d) = "vegetarian") ∧
    normalize_diet (some "eggetarian") = normalize_diet (some "vegetarian") ∧
    c10_plan.diet_type = some "eggetarian" ∧
    c10_user.diet_type = "vegetarian" ∧
    c10_plan ∈ hierarchical_exact_match c10_user [c10_plan] := by
  refine ⟨?_, by decide, by decide, by decide, by decide⟩
  intro d hne h1 h2 h3
  unfold normalize_diet
  dsimp only
  rw [if_neg hne, if_neg h1, if_neg h2, if_neg h3]

/-- Witness for C10: `"eggetarian"` is unrecognized and collapses to
`"vegetarian"`. -/
theorem C10_unrecognized_diet_collapses_witness :
    normalize_diet (some "eggetarian") = "vegetarian" :=
  C10_unrecognized_diet_collapses.1 "eggetarian" (by decide) (by decide) (by decide) (by decide)

end DigitalTwin
